import Mathlib

/-!
Verification of `silx.io.h5py_utils` (file `src/silx/io/h5py_utils.py`).

The module wraps `h5py` with
  * a process-wide locking-policy bookkeeping (`File._NOPEN`,
    `File._HDF5_FILE_LOCKING` and the `HDF5_USE_FILE_LOCKING`
    environment variable),
  * a retry engine (`retry`) classifying exceptions into retryable and
    immediately-propagated ones,
  * a file-open negotiation (`File.__init__`) that falls back to SWMR
    reading when the file is already open for write,
  * item lookup helpers (`open_item`, `open_top_level_items`,
    `default_validate`).

Each definition below mirrors one Python function of the source; the
comments give the source lines.
-/

namespace H5pyUtils

/-! ## Exceptions

Python exception values relevant to the module.  The Python class
hierarchy matters for `except` dispatch: `HDF5RetryError` is a
`RuntimeError`, `HDF5TimeoutError` is a `TimeoutError` which is an
`OSError`.  The wrapper's `except` clauses are ordered so that the two
custom classes are tested first; the embedding keeps them as separate
constructors and encodes the dispatch order in `classifyExc` and
`isOSError`. -/
inductive Exc where
  | hdf5Retry
  | hdf5Timeout
  | osError (msg : String)
  | runtimeError (msg : String)
  | keyError (msg : String)
  | valueError (msg : String)
  | otherExc (msg : String)
deriving DecidableEq

/-- `str(e)` for the message-carrying exceptions (the two argument-free
custom classes stringify to the empty string). -/
def msgOf : Exc → String
  | .hdf5Retry => ""
  | .hdf5Timeout => ""
  | .osError m => m
  | .runtimeError m => m
  | .keyError m => m
  | .valueError m => m
  | .otherExc m => m

/-- Whether an `except OSError` clause catches the exception
(`HDF5TimeoutError` is an `OSError` subclass in Python). -/
def isOSError : Exc → Bool
  | .osError _ => true
  | .hdf5Timeout => true
  | _ => false

/-! ## Substring test

Python `needle in hay` on strings, used for the error-message checks
(`"file is already open for write" in str(e)` and
`"doesn\x27t exist" in str(e)`). -/

/-- `needle` is a prefix of `hay` (char lists). -/
def charsHaveStart : List Char → List Char → Bool
  | [], _ => true
  | _ :: _, [] => false
  | c :: cs, d :: ds => (c == d) && charsHaveStart cs ds

/-- `needle` occurs somewhere in `hay` (char lists). -/
def charsContain : List Char → List Char → Bool
  | n, [] => charsHaveStart n []
  | n, d :: ds => charsHaveStart n (d :: ds) || charsContain n ds

/-- Python `needle in hay` for strings. -/
def strContains (hay needle : String) : Bool :=
  charsContain needle.toList hay.toList

/-! ## Locking-policy state

`LState` gathers the process-wide mutable pieces the source touches:
`os.environ["HDF5_USE_FILE_LOCKING"]` (`env`, `none` = unset),
`File._HDF5_FILE_LOCKING` (`backup`), `File._NOPEN` (`nopen`, a Python
int, here `Int`).  `closes` instruments the number of `close()` calls
performed, used to state the scoped-acquisition property. -/
structure LState where
  env : Option String
  backup : Option Bool
  nopen : Int
  closes : Nat
deriving DecidableEq

/-- `File._get_locking_env` (lines 281-288). -/
def get_locking_env (env : Option String) : Option Bool :=
  match env with
  | some v => if v = "TRUE" then some true else some false
  | none => none

/-- The value `File._backup_locking_env` stores (lines 301-306):
`None` when the variable is unset, else `v == "TRUE"`. -/
def backup_locking_env (env : Option String) : Option Bool :=
  match env with
  | none => none
  | some v => some (v = "TRUE")

/-- The new value of the environment variable written by
`File._set_locking_env` (lines 269-279): `"TRUE"` when enabling, unset
when `enable is None` (the `del` with `KeyError` swallowed), `"FALSE"`
otherwise. -/
def write_locking_env : Option Bool → Option String
  | some true => some "TRUE"
  | none => none
  | some false => some "FALSE"

/-- `File._set_locking_env` (lines 269-279): back the current variable
up, then write the new value. -/
def set_locking_env (enable : Option Bool) (s : LState) : LState :=
  { s with backup := backup_locking_env s.env, env := write_locking_env enable }

/-- The message of the `RuntimeError` raised by `File._check_locking_env`
(lines 290-299); this is the spec's ConfigurationConflictError. -/
def lockingConflictMsg (enable : Bool) : String :=
  if enable then "Close all HDF5 files before enabling HDF5 file locking"
  else "Close all HDF5 files before disabling HDF5 file locking"

/-- `File._check_locking_env` (lines 290-299): fail when the requested
boolean differs from the value read from the environment. -/
def check_locking_env (enable : Bool) (env : Option String) : Except Exc Unit :=
  if get_locking_env env ≠ some enable then
    .error (.runtimeError (lockingConflictMsg enable))
  else .ok ()

/-- `File._restore_locking_env` (lines 308-310). -/
def restore_locking_env (s : LState) : LState :=
  { set_locking_env s.backup s with backup := none }

/-- `File._add_nopen` (lines 259-261): `cls._NOPEN = max(cls._NOPEN + v, 0)`. -/
def add_nopen (n v : Int) : Int := max (n + v) 0

/-- `File.close` (lines 263-267): close the underlying h5py handle (not
tracked in `LState`), decrement `_NOPEN`, restore the locking
environment when the decremented count is zero. -/
def closeFile (s : LState) : LState :=
  if add_nopen s.nopen (-1) = 0 then
    restore_locking_env { s with nopen := add_nopen s.nopen (-1), closes := s.closes + 1 }
  else { s with nopen := add_nopen s.nopen (-1), closes := s.closes + 1 }

/-- The locking bookkeeping step of `File.__init__` (lines 213-216):
check against the active policy while handles are open, install the
requested policy otherwise. -/
def lockingStep (enable : Bool) (s : LState) : Except Exc LState :=
  if s.nopen ≠ 0 then (check_locking_env enable s.env).map fun _ => s
  else .ok (set_locking_env (some enable) s)

/-! ## Default validity predicate (`default_validate`, lines 133-137)

An item's `"end_time" in h5item` test may itself raise (partially
written object); the outcome of that membership test is the only
behaviour of an item the predicate observes. -/
structure H5Item where
  endTimeMember : Except Exc Bool

/-- `default_validate` (lines 133-137): `try: return "end_time" in
h5item except Exception: return False`. -/
def default_validate (h5item : H5Item) : Bool :=
  match h5item.endTimeMember with
  | .ok b => b
  | .error _ => false

/-! ## Retry engine (`retry`, lines 68-130)

The decorated wrapper loops: run one attempt (open the file, run the
method, close the file on every exit of the `with` block); on success
return; dispatch a raised exception through the ordered `except`
clauses (lines 105-118); sleep; when a deadline is set and the elapsed
time at the check (line 122) exceeds it, raise `HDF5TimeoutError` with
the last retryable exception as cause (line 123). -/

/-- What the wrapper does with an exception raised by one attempt:
absorb it and retry, or let it propagate.  Mirrors the `except` clause
order of lines 105-118. -/
inductive Disposition where
  | retryable
  | propagate
deriving DecidableEq

/-- Exception dispatch of the wrapper (lines 105-118).  `HDF5RetryError`
is caught first (line 105); `HDF5TimeoutError` is re-raised (line 107)
before the `OSError` clause can see it; `OSError` and `RuntimeError`
are retried; a `KeyError` whose message holds `"doesn\x27t exist"` is
re-raised, any other `KeyError` is retried; exceptions without a
matching clause propagate. -/
def classifyExc : Exc → Disposition
  | .hdf5Retry => .retryable
  | .hdf5Timeout => .propagate
  | .osError _ => .retryable
  | .runtimeError _ => .retryable
  | .keyError m =>
      if strContains m "doesn\x27t exist" then .propagate else .retryable
  | .valueError _ => .propagate
  | .otherExc _ => .propagate

/-- One observed attempt of the wrapped operation: the outcome of the
`try` body, and the elapsed time `time.time() - t0` read at the
deadline check that follows the attempt (line 122, after the sleep of
line 121, so one `retry_period` is included). -/
structure AttemptObs (α : Type) where
  res : Except Exc α
  elapsed : Nat

/-- What a run of the wrapper produces. -/
inductive RetryResult (α : Type) where
  | success (v : α)
  | raised (e : Exc)
  | timedOut (cause : Exc)
  | running
deriving DecidableEq

/-- The retry loop (lines 96-123) over a finite list of attempt
observations; `running` means the supplied observations were exhausted
with the loop still going (there is no retry-count bound in the
source).  On a retryable failure the deadline check compares the
elapsed time against the timeout and raises `HDF5TimeoutError from
exception` when exceeded: the cause is the exception of the attempt
just finished. -/
def retryLoop {α : Type} (timeout : Option Nat) : List (AttemptObs α) → RetryResult α
  | [] => .running
  | a :: rest =>
    match a.res with
    | .ok v => .success v
    | .error e =>
      match classifyExc e with
      | .propagate => .raised e
      | .retryable =>
        match timeout with
        | none => retryLoop none rest
        | some t => if t < a.elapsed then .timedOut e else retryLoop (some t) rest

/-- An observation that fails with an exception the wrapper retries. -/
def isRetryObs {α : Type} (a : AttemptObs α) : Prop :=
  ∃ e, a.res = .error e ∧ classifyExc e = .retryable

/-! ## Item locator (`open_item`, lines 155-168)

The body wrapped by `@retry`: look the item up (`h5file[name]`, whose
outcome is the `lookup` argument), then apply the validity predicate
when one is given; an invalid item raises `HDF5RetryError`. -/
def open_item_body (lookup : Except Exc H5Item) (validate : Option (H5Item → Bool)) :
    Except Exc H5Item :=
  match lookup with
  | .error e => .error e
  | .ok h5item =>
    match validate with
    | some v => if v h5item then .ok h5item else .error .hdf5Retry
    | none => .ok h5item

/-! ## Handle-count bookkeeping (`File._add_nopen` and `File.close`)

A machine tracking, next to `_NOPEN`, the open/closed flag of every
handle created in the process, to compare the counter with the number
of currently-open handles.  `hopen` is a `File.__init__` that succeeds
on its first underlying open: the `try`-else clause runs
`_add_nopen(1)` (line 250) and a new handle exists.  `hopenFallback` is
a `File.__init__` that succeeds through the SWMR-read fallback inside
the `except` handler (lines 240-246): a new handle exists but the
`try`-else clause — and with it `_add_nopen(1)` — is skipped.
`hclose i` is `File.close` on handle `i` (lines 263-265): the
underlying h5py close is idempotent (the flag just becomes false), but
`_add_nopen(-1)` runs on every call.  The locking-environment part of
`close` does not touch the counter and is modelled in `LState`. -/
structure HState where
  nopen : Int
  handles : List Bool
deriving DecidableEq

inductive HEv where
  | hopen
  | hopenFallback
  | hclose (i : Nat)
deriving DecidableEq

def hstep (s : HState) : HEv → HState
  | .hopen => ⟨add_nopen s.nopen 1, s.handles ++ [true]⟩
  | .hopenFallback => ⟨s.nopen, s.handles ++ [true]⟩
  | .hclose i => ⟨add_nopen s.nopen (-1), s.handles.set i false⟩

def hrun : HState → List HEv → HState
  | s, [] => s
  | s, e :: t => hrun (hstep s e) t

/-- The number of currently-open handles. -/
def countOpen (hs : List Bool) : Nat := hs.count true

/-- A trace in which every close targets a currently-open handle (each
handle closed at most once). -/
def hwf : HState → List HEv → Bool
  | _, [] => true
  | s, .hopen :: t => hwf (hstep s .hopen) t
  | s, .hopenFallback :: t => hwf (hstep s .hopenFallback) t
  | s, .hclose i :: t => s.handles.getD i false && hwf (hstep s (.hclose i)) t

/-- Whether a trace holds a fallback-path open. -/
def hasFallbackOpen : List HEv → Bool
  | [] => false
  | .hopenFallback :: _ => true
  | _ :: t => hasFallbackOpen t

/-! ## Container-handle negotiation (`File.__init__`, lines 186-257)

The caller passes `mode`, `enable_file_locking`, `swmr` and `libver`
(each possibly `None`); `**kwargs` is opaque and not modelled (the
`track_order` default of lines 221-222 does not interact with any
claim).  The behaviour of the external collaborator is a parameter:
`h5open sw lv` is the outcome of `h5py.File.__init__` for the resolved
`(swmr, libver)` pair (filename, mode and kwargs are fixed within one
call), and `setSwmr` is the outcome of `self.swmr_mode = True`. -/
structure InitEnv where
  h5open : Option Bool → Option String → Except Exc Unit
  setSwmr : Except Exc Unit

/-- The observable outcome of one `File.__init__` call: the result, the
process state afterwards, the log of underlying open attempts (their
`(swmr, libver)` arguments, in order), and whether the underlying
resource was successfully opened at some point. -/
structure InitOutcome where
  res : Except Exc Unit
  state : LState
  attempts : List (Option Bool × Option String)
  opened : Bool

/-- Python truthiness of a `True`/`False`/`None` value. -/
def pyTruthy (b : Option Bool) : Bool := b = some true

/-- Line 212: `enable_file_locking = bool(mode != "r" or swmr)` — the
default locking flag when the caller leaves it unspecified.  Python
`or` yields its second operand when the first is falsy, and `bool`
sends `None` to `False`. -/
def resolve_enable_file_locking (mode : String) (swmr : Option Bool) : Bool :=
  decide (mode ≠ "r") || pyTruthy swmr

/-- Lines 208-209: without SWMR support the requested `swmr` is forced
to `False`. -/
def forcedSwmr (hasSWMR : Bool) (swmr : Option Bool) : Option Bool :=
  if hasSWMR then swmr else some false

/-- The accepted `mode` strings (line 206). -/
def validModes : List String := ["r", "w", "w-", "x", "a"]

/-- The success branch of `File.__init__` (lines 249-257): increment
`_NOPEN`; when opening for write with SWMR requested, try to enable the
writer's SWMR mode, closing the handle and propagating on failure. -/
def fileInitOpened (E : InitEnv) (mode : String) (swmr : Option Bool)
    (s : LState) (log : List (Option Bool × Option String)) : InitOutcome :=
  let s1 := { s with nopen := add_nopen s.nopen 1 }
  if mode ≠ "r" ∧ pyTruthy swmr = true then
    match E.setSwmr with
    | .ok _ => ⟨.ok (), s1, log, true⟩
    | .error e => ⟨.error e, closeFile s1, log, true⟩
  else ⟨.ok (), s1, log, true⟩

/-- The open attempts of `File.__init__` (lines 223-257): try the
underlying open; when it fails with an `OSError`, `mode == "r"`, the
caller left `swmr` unresolved and the message signals the
already-open-for-write condition, retry once with `swmr = True` and the
version bound pinned to `"latest"` when none was given; any other
failure propagates.  The `else:` of line 249 is the `try`-statement
else clause: its suite — `_add_nopen(1)` and the writer-SWMR step,
embedded as `fileInitOpened` — runs only when the `try` suite raised
nothing, so an open that succeeds through the fallback inside the
`except` handler leaves `_NOPEN` unchanged and skips the writer-SWMR
step. -/
def fileInitLocked (E : InitEnv) (mode : String) (swmr : Option Bool)
    (libver : Option String) (s : LState) : InitOutcome :=
  match E.h5open swmr libver with
  | .ok _ => fileInitOpened E mode swmr s [(swmr, libver)]
  | .error e =>
    if isOSError e = true ∧ mode = "r" ∧ swmr = none ∧
        strContains (msgOf e) "file is already open for write" = true then
      match E.h5open (some true) (if libver = none then some "latest" else libver) with
      | .ok _ =>
        ⟨.ok (), s,
          [(swmr, libver), (some true, if libver = none then some "latest" else libver)],
          true⟩
      | .error e2 =>
        ⟨.error e2, s,
          [(swmr, libver), (some true, if libver = none then some "latest" else libver)],
          false⟩
    else ⟨.error e, s, [(swmr, libver)], false⟩

/-- Lines 211-212: the locking flag actually used — the caller's value
when given, the default of line 212 otherwise. -/
def resolvedEnable (mode : String) (enable0 : Option Bool) (swmr : Option Bool) : Bool :=
  match enable0 with
  | none => resolve_enable_file_locking mode swmr
  | some b => b

/-- Lines 218-219: pin `libver` to `"latest"` when SWMR is requested
with no explicit bound. -/
def resolvedLibver (swmr : Option Bool) (libver0 : Option String) : Option String :=
  if pyTruthy swmr = true ∧ libver0 = none then some "latest" else libver0

/-- `File.__init__` after mode validation (lines 208-257): force `swmr`
without SWMR support, resolve the locking flag, do the locking
bookkeeping, resolve `libver`, then attempt the open. -/
def fileInitChecked (hasSWMR : Bool) (E : InitEnv) (mode : String)
    (enable0 swmr0 : Option Bool) (libver0 : Option String) (s : LState) : InitOutcome :=
  match lockingStep (resolvedEnable mode enable0 (forcedSwmr hasSWMR swmr0)) s with
  | .error e => ⟨.error e, s, [], false⟩
  | .ok s1 =>
    fileInitLocked E mode (forcedSwmr hasSWMR swmr0)
      (resolvedLibver (forcedSwmr hasSWMR swmr0) libver0) s1

/-- `File.__init__` (lines 186-257).  `mode0 = none` defaults to `"r"`
(lines 204-205); an unrecognized mode raises `ValueError` (lines
206-207). -/
def fileInit (hasSWMR : Bool) (E : InitEnv) (mode0 : Option String)
    (enable0 swmr0 : Option Bool) (libver0 : Option String) (s : LState) : InitOutcome :=
  match mode0 with
  | none => fileInitChecked hasSWMR E "r" enable0 swmr0 libver0 s
  | some m =>
    if m ∈ validModes then fileInitChecked hasSWMR E m enable0 swmr0 libver0 s
    else ⟨.error (.valueError ("invalid mode " ++ m)), s, [], false⟩

/-! ## The retry-wrapped `with File(...)` operation (lines 96-123)

One attempt opens the file, runs the method body inside the `with`
block and closes the handle on every exit of the block; this is the
scoped-acquisition shape (the `context=True` variant re-raises an
exception thrown into the generator at the `yield` point through the
same `with`, so the body outcome covers the caller's block as well). -/

/-- How the caller's body exits: a value, or an exception (a retryable
failure, a fatal one, or an exception raised by the caller's usage
block in the context-manager shape). -/
inductive BodyOutcome (α : Type) where
  | ret (v : α)
  | raise (e : Exc)

/-- The environment's behaviour at one attempt: how the opens behave,
how the body exits, and the elapsed time at the deadline check. -/
structure AttemptSpec (α : Type) where
  E : InitEnv
  body : BodyOutcome α
  elapsed : Nat

/-- The fixed arguments the wrapper passes to `File` (`**kw` of the
decorator). -/
structure FileParams where
  hasSWMR : Bool
  mode0 : Option String
  enable0 : Option Bool
  swmr0 : Option Bool
  libver0 : Option String

/-- One attempt of the wrapped operation: `with File(filename, **kw) as
f: result = method(f, ...)` (lines 98-104).  The handle is closed on
every exit of the `with` block; when `File.__init__` itself fails no
handle exists (a failure of the SWMR-writer step inside `__init__`
closes the handle there, lines 255-257). -/
def attemptRun {α : Type} (p : FileParams) (a : AttemptSpec α) (s : LState) :
    Except Exc α × LState :=
  match fileInit p.hasSWMR a.E p.mode0 p.enable0 p.swmr0 p.libver0 s with
  | ⟨.error e, s1, _, _⟩ => (.error e, s1)
  | ⟨.ok _, s1, _, _⟩ =>
    match a.body with
    | .ret v => (.ok v, closeFile s1)
    | .raise e => (.error e, closeFile s1)

/-- The retry loop (lines 96-123) over the file-opening operation,
threading the process state through the attempts. -/
def retryLoopSt {α : Type} (p : FileParams) (timeout : Option Nat) :
    List (AttemptSpec α) → LState → RetryResult α × LState
  | [], s => (.running, s)
  | a :: rest, s =>
    match attemptRun p a s with
    | (.ok v, s1) => (.success v, s1)
    | (.error e, s1) =>
      match classifyExc e with
      | .propagate => (.raised e, s1)
      | .retryable =>
        match timeout with
        | none => retryLoopSt p none rest s1
        | some t =>
          if t < a.elapsed then (.timedOut e, s1) else retryLoopSt p (some t) rest s1

/-! ## Sessions of opens and closes

For the restore property: a sequence of `File.__init__` calls (each
required to succeed) and `File.close` calls within one process. -/
inductive SessionEv where
  | sopen (p : FileParams) (E : InitEnv)
  | sclose

/-- One session event; a failed open aborts the run. -/
def sessionStep (s : LState) : SessionEv → Option LState
  | .sopen p E =>
    match fileInit p.hasSWMR E p.mode0 p.enable0 p.swmr0 p.libver0 s with
    | ⟨.ok _, s1, _, _⟩ => some s1
    | ⟨.error _, _, _, _⟩ => none
  | .sclose => some (closeFile s)

def sessionRun : LState → List SessionEv → Option LState
  | s, [] => some s
  | s, e :: t =>
    match sessionStep s e with
    | some s1 => sessionRun s1 t
    | none => none

/-- Well-nestedness relative to a starting depth: every close is matched
by an earlier open of the sequence. -/
def closable : Int → List SessionEv → Bool
  | _, [] => true
  | n, .sopen _ _ :: t => closable (n + 1) t
  | n, .sclose :: t => decide (1 ≤ n) && closable (n - 1) t

/-- The condition of lines 235-239 observed on the first underlying
open attempt: whether a `File.__init__` with these arguments enters the
SWMR-read fallback branch.  The first attempt's `(swmr, libver)` pair
and the branch condition do not depend on the process state, so this is
a function of the call arguments and the environment alone. -/
def fallbackTriggered (hS : Bool) (E : InitEnv) (m0 : Option String)
    (sw0 : Option Bool) (lv0 : Option String) : Bool :=
  match E.h5open (forcedSwmr hS sw0) (resolvedLibver (forcedSwmr hS sw0) lv0) with
  | .ok _ => false
  | .error e =>
    isOSError e && (m0.getD "r" == "r") && (forcedSwmr hS sw0 == none)
      && strContains (msgOf e) "file is already open for write"

/-- A session in which no open enters the SWMR-read fallback branch. -/
def sessionNoFallback : List SessionEv → Bool
  | [] => true
  | .sclose :: t => sessionNoFallback t
  | .sopen p E :: t =>
    !fallbackTriggered p.hasSWMR E p.mode0 p.swmr0 p.libver0 && sessionNoFallback t

/-- The restore invariant: while no handle is open the ambient setting
reads as `g`; while handles are open, the stored backup restores to a
value reading as `g`. -/
def LockInv (g : Option Bool) (s : LState) : Prop :=
  (s.nopen = 0 → get_locking_env s.env = g)
  ∧ (s.nopen ≠ 0 → get_locking_env (write_locking_env s.backup) = g)

/-! ## Concrete environments used by witnesses and counterexamples -/

/-- A file whose plain-read open fails with the already-open-for-write
message while the SWMR-read open succeeds (a writer holds it in SWMR
mode). -/
def envWriterHolds : InitEnv :=
  { h5open := fun sw _ =>
      if sw = none then
        .error (.osError
          "unable to open file (file is already open for write (may use h5clear))")
      else .ok ()
    setSwmr := .ok () }

/-- A file that always opens, with the writer's SWMR switch working. -/
def envAllOk : InitEnv :=
  { h5open := fun _ _ => .ok (), setSwmr := .ok () }

/-- A file that always opens but whose writer SWMR switch fails. -/
def envSwmrFails : InitEnv :=
  { h5open := fun _ _ => .ok (), setSwmr := .error (.runtimeError "unable to start swmr writing") }

/-- A file whose open always fails with a locking conflict. -/
def envLockBusy : InitEnv :=
  { h5open := fun _ _ =>
      .error (.osError "unable to lock file, errno = 11, error message = Resource temporarily unavailable")
    setSwmr := .ok () }

/-! # Theorems -/

/-! ## C10: the default validity predicate -/

/-- C10: `default_validate` is total (a Lean function into `Bool`): it
returns the outcome of the `"end_time"` membership test when that test
succeeds, returns `false` whenever the test raises, and returns `true`
exactly when the test succeeds with `true`. -/
theorem default_validate_total_spec (b : Bool) (e : Exc) (it : H5Item) :
    default_validate ⟨.ok b⟩ = b
    ∧ default_validate ⟨.error e⟩ = false
    ∧ (default_validate it = true ↔ it.endTimeMember = .ok true) := by
  refine ⟨rfl, rfl, ?_⟩
  obtain ⟨m⟩ := it
  cases m with
  | ok b => cases b <;> simp [default_validate]
  | error e => simp [default_validate]

/-! ## C4: changing the locking policy while handles are open -/

/-- C4: with at least one handle open, a locking-policy request that
differs from the active policy fails with the configuration-conflict
`RuntimeError`, and a request equal to the active policy succeeds with
the state unchanged. -/
theorem locking_change_while_open (enable : Bool) (s : LState) (h : 0 < s.nopen) :
    (get_locking_env s.env ≠ some enable →
      lockingStep enable s = .error (.runtimeError (lockingConflictMsg enable)))
    ∧ (get_locking_env s.env = some enable → lockingStep enable s = .ok s) := by
  have hne : s.nopen ≠ 0 := by omega
  constructor
  · intro hd
    simp [lockingStep, hne, check_locking_env, hd, Except.map]
  · intro he
    simp [lockingStep, hne, check_locking_env, he, Except.map]

theorem locking_change_while_open_witness :
    lockingStep false ⟨some "TRUE", none, 1, 0⟩ =
      .error (.runtimeError (lockingConflictMsg false))
    ∧ lockingStep true ⟨some "TRUE", none, 1, 0⟩ = .ok ⟨some "TRUE", none, 1, 0⟩ :=
  ⟨(locking_change_while_open false ⟨some "TRUE", none, 1, 0⟩ (by decide)).1 (by decide),
   (locking_change_while_open true ⟨some "TRUE", none, 1, 0⟩ (by decide)).2 (by decide)⟩

/-! ## C6: the default locking flag -/

/-- C6 counterexample: with `mode = "r"` and `swmr` left unspecified
(`none`, not the explicit `false` of the claim), the resolved default
locking flag is `false`, refuting the claim that it is `true` outside
the single explicit-`false` case. -/
theorem default_locking_counterexample :
    resolve_enable_file_locking "r" (forcedSwmr true none) = false
    ∧ ¬(("r" : String) = "r" ∧ (none : Option Bool) = some false) := by
  decide

/-- C6 amended: when `enable_file_locking` is left unspecified, the
resolved flag is `true` exactly when the mode is not read-only or SWMR
was requested as `true` (and supported); for `mode = "r"` with `swmr`
false, unspecified, or unsupported, it is `false`. -/
theorem default_locking_resolution_amended (hasSWMR : Bool) (mode : String)
    (swmr0 : Option Bool) :
    resolve_enable_file_locking mode (forcedSwmr hasSWMR swmr0) = true
      ↔ (mode ≠ "r" ∨ (hasSWMR = true ∧ swmr0 = some true)) := by
  cases hasSWMR <;> rcases swmr0 with _ | b <;>
    simp [resolve_enable_file_locking, forcedSwmr, pyTruthy]

/-! ## C2: the handle counter against the number of open handles -/

/-- C2 counterexample: open two handles, close the first one twice.
`_NOPEN` falls to `0` although one handle is still open: `close` is not
idempotent at the counter level, double close double-decrements. -/
theorem nopen_double_close_counterexample :
    (hrun ⟨0, []⟩ [.hopen, .hopen, .hclose 0, .hclose 0]).nopen = 0
    ∧ countOpen (hrun ⟨0, []⟩ [.hopen, .hopen, .hclose 0, .hclose 0]).handles = 1
    ∧ (hrun ⟨0, []⟩ [.hopen, .hopen, .hclose 0, .hclose 0]).nopen ≠
        (countOpen (hrun ⟨0, []⟩ [.hopen, .hopen, .hclose 0, .hclose 0]).handles : Int) := by
  decide

theorem count_true_set_false :
    ∀ (hs : List Bool) (i : Nat), hs.getD i false = true →
      (hs.set i false).count true + 1 = hs.count true
  | [], i, h => by simp at h
  | b :: t, 0, h => by
    simp only [List.getD_cons_zero] at h
    subst h
    simp [List.count_cons]
  | b :: t, i + 1, h => by
    simp only [List.getD_cons_succ] at h
    have ih := count_true_set_false t i h
    simp only [List.set_cons_succ, List.count_cons]
    omega

theorem hrun_nonneg : ∀ (t : List HEv) (s : HState), 0 ≤ s.nopen → 0 ≤ (hrun s t).nopen
  | [], _, h => h
  | e :: t, s, h => by
    apply hrun_nonneg t
    cases e with
    | hopen => exact le_max_right _ _
    | hopenFallback => exact h
    | hclose i => exact le_max_right _ _

theorem hrun_wf_count : ∀ (t : List HEv) (s : HState),
    s.nopen = (countOpen s.handles : Int) → hwf s t = true →
    hasFallbackOpen t = false →
    (hrun s t).nopen = (countOpen (hrun s t).handles : Int)
  | [], _, h, _, _ => h
  | .hopen :: t, s, h, hw, hnf => by
    apply hrun_wf_count t
    · simp only [hstep, countOpen, add_nopen, List.count_append] at *
      simp [h]
      omega
    · simpa [hwf] using hw
    · simpa [hasFallbackOpen] using hnf
  | .hopenFallback :: t, s, h, hw, hnf => by
    simp [hasFallbackOpen] at hnf
  | .hclose i :: t, s, h, hw, hnf => by
    simp only [hwf, Bool.and_eq_true] at hw
    apply hrun_wf_count t
    · have hc := count_true_set_false s.handles i hw.1
      simp only [hstep, countOpen, add_nopen] at *
      omega
    · exact hw.2
    · simpa [hasFallbackOpen] using hnf

/-- C2 amended: `_NOPEN` never goes negative (each update clamps at
zero); along any sequence in which every close targets a currently-open
handle and every successful open is a normal (first-attempt) open, the
counter equals the number of currently-open handles.  It undercounts
otherwise: a second close of the same handle decrements the counter
again (the counterexample), and a fallback-path open adds an open
handle without incrementing (the `try`-else increment of line 250 is
skipped, the third conjunct). -/
theorem nopen_matches_open_handles_amended :
    (∀ (t : List HEv) (s : HState), 0 ≤ s.nopen → 0 ≤ (hrun s t).nopen)
    ∧ (∀ (t : List HEv) (s : HState), s.nopen = (countOpen s.handles : Int) →
        hwf s t = true → hasFallbackOpen t = false →
        (hrun s t).nopen = (countOpen (hrun s t).handles : Int))
    ∧ (∀ s : HState, (hstep s .hopenFallback).nopen = s.nopen
        ∧ countOpen (hstep s .hopenFallback).handles = countOpen s.handles + 1) :=
  ⟨hrun_nonneg, hrun_wf_count,
   fun s => ⟨rfl, by simp [hstep, countOpen, List.count_append]⟩⟩

/-! ## C7: classification of item-lookup failures -/

/-- C7: inside a retry-wrapped `open_item`, an absent item surfaces as
a `KeyError`: when its message lacks the `"doesn\x27t exist"` marker
the loop retries (the head attempt is absorbed and the loop goes on);
when the message carries the marker the error propagates immediately;
and an item that is present but fails the validity predicate raises
`HDF5RetryError`, which the loop likewise absorbs and retries. -/
theorem open_item_error_classification (m : String) (it : H5Item) (v : H5Item → Bool)
    (rest : List (AttemptObs H5Item)) (k : Nat) :
    (strContains m "doesn\x27t exist" = false →
      retryLoop none (⟨open_item_body (.error (.keyError m)) (some v), k⟩ :: rest) =
        retryLoop none rest)
    ∧ (strContains m "doesn\x27t exist" = true →
      retryLoop none (⟨open_item_body (.error (.keyError m)) (some v), k⟩ :: rest) =
        .raised (.keyError m))
    ∧ (v it = false →
      retryLoop none (⟨open_item_body (.ok it) (some v), k⟩ :: rest) =
        retryLoop none rest) := by
  refine ⟨?_, ?_, ?_⟩ <;> intro hx <;>
    simp [retryLoop, open_item_body, classifyExc, hx]

/-! ## C1: timeout behaviour of the retry engine -/

theorem retryLoop_running_of_le {α : Type} :
    ∀ (obs : List (AttemptObs α)) (T : Nat),
      (∀ a ∈ obs, isRetryObs a) → (∀ a ∈ obs, a.elapsed ≤ T) →
      retryLoop (some T) obs = .running
  | [], _, _, _ => rfl
  | a :: rest, T, hall, hle => by
    obtain ⟨e, hres, hcls⟩ := hall a (List.mem_cons_self a rest)
    have hlea := hle a (List.mem_cons_self a rest)
    simp only [retryLoop, hres, hcls]
    rw [if_neg (by omega)]
    exact retryLoop_running_of_le rest T
      (fun b hb => hall b (List.mem_cons_of_mem a hb))
      (fun b hb => hle b (List.mem_cons_of_mem a hb))

theorem retryLoop_timedOut_first {α : Type} :
    ∀ (obs : List (AttemptObs α)) (T : Nat) (i : Nat) (hi : i < obs.length),
      (∀ a ∈ obs, isRetryObs a) →
      (∀ j (hj : j < obs.length), j < i → (obs.get ⟨j, hj⟩).elapsed ≤ T) →
      T < (obs.get ⟨i, hi⟩).elapsed →
      ∃ e, (obs.get ⟨i, hi⟩).res = .error e ∧ retryLoop (some T) obs = .timedOut e
  | [], _, i, hi, _, _, _ => by simp at hi
  | a :: rest, T, 0, hi, hall, _, hgt => by
    obtain ⟨e, hres, hcls⟩ := hall a (List.mem_cons_self a rest)
    refine ⟨e, hres, ?_⟩
    simp only [retryLoop, hres, hcls]
    rw [if_pos (show T < a.elapsed from hgt)]
  | a :: rest, T, i + 1, hi, hall, hpre, hgt => by
    have hlea : a.elapsed ≤ T := hpre 0 (by omega) (by omega)
    obtain ⟨e, hres, hcls⟩ := hall a (List.mem_cons_self a rest)
    have hrec := retryLoop_timedOut_first rest T i (by simpa using hi)
      (fun b hb => hall b (List.mem_cons_of_mem a hb))
      (fun j hj hlt => hpre (j + 1) (by omega) (by omega))
      hgt
    obtain ⟨e2, hres2, hloop⟩ := hrec
    refine ⟨e2, hres2, ?_⟩
    simp only [retryLoop, hres, hcls]
    rw [if_neg (by omega)]
    exact hloop

theorem retryLoop_timedOut_exists {α : Type} :
    ∀ (obs : List (AttemptObs α)) (T : Nat),
      (∀ a ∈ obs, isRetryObs a) → (∃ a ∈ obs, T < a.elapsed) →
      ∃ c, retryLoop (some T) obs = .timedOut c
  | [], _, _, hex => by simp at hex
  | a :: rest, T, hall, hex => by
    obtain ⟨e, hres, hcls⟩ := hall a (List.mem_cons_self a rest)
    by_cases hTa : T < a.elapsed
    · refine ⟨e, ?_⟩
      simp only [retryLoop, hres, hcls]
      rw [if_pos hTa]
    · obtain ⟨b, hb, hTb⟩ := hex
      rcases List.mem_cons.1 hb with hba | hbr
      · subst hba; omega
      · obtain ⟨c, hc⟩ := retryLoop_timedOut_exists rest T
          (fun x hx => hall x (List.mem_cons_of_mem a hx)) ⟨b, hbr, hTb⟩
        refine ⟨c, ?_⟩
        simp only [retryLoop, hres, hcls]
        rw [if_neg hTa]
        exact hc

/-- C1: for an operation whose every attempt fails with an error the
wrapper retries, a fixed deadline `T` makes the loop (i) keep running as
long as every deadline check reads an elapsed time at most `T`, (ii)
raise the timeout error at the first check whose elapsed time exceeds
`T`, carrying as cause the retryable error of the attempt just
observed (the last one), and (iii) raise the timeout error whenever
some check exceeds `T`. -/
theorem retry_timeout_bound_and_cause {α : Type} (T : Nat) (obs : List (AttemptObs α))
    (hall : ∀ a ∈ obs, isRetryObs a) :
    ((∀ a ∈ obs, a.elapsed ≤ T) → retryLoop (some T) obs = .running)
    ∧ (∀ i (hi : i < obs.length),
        (∀ j (hj : j < obs.length), j < i → (obs.get ⟨j, hj⟩).elapsed ≤ T) →
        T < (obs.get ⟨i, hi⟩).elapsed →
        ∃ e, (obs.get ⟨i, hi⟩).res = .error e ∧ retryLoop (some T) obs = .timedOut e)
    ∧ ((∃ a ∈ obs, T < a.elapsed) → ∃ c, retryLoop (some T) obs = .timedOut c) :=
  ⟨retryLoop_running_of_le obs T hall,
   fun i hi hpre hgt => retryLoop_timedOut_first obs T i hi hall hpre hgt,
   retryLoop_timedOut_exists obs T hall⟩

theorem retry_timeout_bound_and_cause_witness :
    retryLoop (some 3) [⟨.error .hdf5Retry, 1⟩, ⟨.error (.osError "x"), 5⟩] =
      RetryResult.timedOut (α := Nat) (.osError "x")
    ∧ retryLoop (some 9) [⟨.error .hdf5Retry, 1⟩, ⟨.error (.osError "x"), 5⟩] =
      RetryResult.running (α := Nat) := by
  have hall : ∀ a ∈ ([⟨.error .hdf5Retry, 1⟩, ⟨.error (.osError "x"), 5⟩] :
      List (AttemptObs Nat)), isRetryObs a := by
    intro a ha
    rcases List.mem_cons.1 ha with h1 | h2
    · exact ⟨.hdf5Retry, by rw [h1], rfl⟩
    · rcases List.mem_cons.1 h2 with h3 | h4
      · exact ⟨.osError "x", by rw [h3], rfl⟩
      · simp at h4
  constructor
  · obtain ⟨e, hres, hloop⟩ :=
      (retry_timeout_bound_and_cause 3 [⟨.error .hdf5Retry, 1⟩, ⟨.error (.osError "x"), 5⟩]
        hall).2.1 1 (by decide)
        (by
          intro j hj hlt
          have hj0 : j = 0 := by omega
          subst hj0
          exact (by decide : (1 : Nat) ≤ 3))
        (by decide)
    have he : Except.error (Exc.osError "x") = Except.error (ε := Exc) e := hres
    injection he with he2
    rw [← he2] at hloop
    exact hloop
  · exact (retry_timeout_bound_and_cause 9
      [⟨.error .hdf5Retry, 1⟩, ⟨.error (.osError "x"), 5⟩] hall).1 (by decide)

/-! ## Characterization lemmas for `File.__init__` and `File.close` -/

theorem add_nopen_up (n : Int) (h : 0 ≤ n) : add_nopen n 1 = n + 1 := by
  unfold add_nopen; omega

theorem add_nopen_down (n : Int) (h : 0 ≤ n) : add_nopen (n + 1) (-1) = n := by
  unfold add_nopen; omega

theorem closeFile_nopen (s : LState) : (closeFile s).nopen = add_nopen s.nopen (-1) := by
  unfold closeFile
  split
  · rfl
  · rfl

theorem closeFile_closes (s : LState) : (closeFile s).closes = s.closes + 1 := by
  unfold closeFile
  split
  · rfl
  · rfl

theorem closeFile_restore (s : LState) (h : add_nopen s.nopen (-1) = 0) :
    closeFile s = ⟨write_locking_env s.backup, none, 0, s.closes + 1⟩ := by
  unfold closeFile
  rw [if_pos h]
  simp [restore_locking_env, set_locking_env, h]

theorem closeFile_keep (s : LState) (h : add_nopen s.nopen (-1) ≠ 0) :
    closeFile s = ⟨s.env, s.backup, add_nopen s.nopen (-1), s.closes + 1⟩ := by
  unfold closeFile
  rw [if_neg h]

theorem lockingStep_cases (enable : Bool) (s : LState) :
    (∃ e, lockingStep enable s = .error e)
    ∨ (s.nopen ≠ 0 ∧ lockingStep enable s = .ok s)
    ∨ (s.nopen = 0 ∧ lockingStep enable s = .ok (set_locking_env (some enable) s)) := by
  unfold lockingStep
  split
  · cases h : check_locking_env enable s.env with
    | ok u => cases u; exact Or.inr (Or.inl ⟨by assumption, rfl⟩)
    | error e => exact Or.inl ⟨e, rfl⟩
  · exact Or.inr (Or.inr ⟨by omega, rfl⟩)

theorem fileInitOpened_spec (E : InitEnv) (m : String) (sw : Option Bool)
    (s : LState) (log : List (Option Bool × Option String)) :
    (fileInitOpened E m sw s log).opened = true
    ∧ (fileInitOpened E m sw s log).attempts = log
    ∧ ((fileInitOpened E m sw s log).res = .ok ()
         ∧ (fileInitOpened E m sw s log).state = { s with nopen := add_nopen s.nopen 1 }
       ∨ ∃ e, (fileInitOpened E m sw s log).res = .error e
         ∧ (fileInitOpened E m sw s log).state =
             closeFile { s with nopen := add_nopen s.nopen 1 }) := by
  unfold fileInitOpened
  split
  · cases hS : E.setSwmr with
    | ok u => cases u; exact ⟨rfl, rfl, Or.inl ⟨rfl, rfl⟩⟩
    | error e => exact ⟨rfl, rfl, Or.inr ⟨e, rfl, rfl⟩⟩
  · exact ⟨rfl, rfl, Or.inl ⟨rfl, rfl⟩⟩

theorem fileInitLocked_spec (E : InitEnv) (m : String) (sw : Option Bool)
    (lv : Option String) (s : LState) :
    ((fileInitLocked E m sw lv s).res = .ok ()
       ∧ ((fileInitLocked E m sw lv s).attempts.length = 1
            ∧ (fileInitLocked E m sw lv s).state = { s with nopen := add_nopen s.nopen 1 }
          ∨ (fileInitLocked E m sw lv s).attempts.length = 2
            ∧ (fileInitLocked E m sw lv s).state = s)
       ∧ (fileInitLocked E m sw lv s).opened = true)
    ∨ (∃ e, (fileInitLocked E m sw lv s).res = .error e
       ∧ ((fileInitLocked E m sw lv s).opened = true
            ∧ (fileInitLocked E m sw lv s).state =
                closeFile { s with nopen := add_nopen s.nopen 1 }
          ∨ (fileInitLocked E m sw lv s).opened = false
            ∧ (fileInitLocked E m sw lv s).state = s)) := by
  unfold fileInitLocked
  split
  · obtain ⟨hop, hat, hc⟩ := fileInitOpened_spec E m sw s [(sw, lv)]
    rcases hc with ⟨hres, hst⟩ | ⟨e, hres, hst⟩
    · exact Or.inl ⟨hres, Or.inl ⟨by rw [hat]; rfl, hst⟩, hop⟩
    · exact Or.inr ⟨e, hres, Or.inl ⟨hop, hst⟩⟩
  · split
    · split
      · exact Or.inl ⟨rfl, Or.inr ⟨rfl, rfl⟩, rfl⟩
      · exact Or.inr ⟨_, rfl, Or.inr ⟨rfl, rfl⟩⟩
    · exact Or.inr ⟨_, rfl, Or.inr ⟨rfl, rfl⟩⟩

theorem fileInitChecked_spec (hS : Bool) (E : InitEnv) (m : String)
    (e0 sw0 : Option Bool) (lv0 : Option String) (s : LState) :
    ((fileInitChecked hS E m e0 sw0 lv0 s).res = .ok ()
      ∧ (fileInitChecked hS E m e0 sw0 lv0 s).opened = true
      ∧ ((fileInitChecked hS E m e0 sw0 lv0 s).attempts.length = 1
          ∧ ((s.nopen ≠ 0 ∧ (fileInitChecked hS E m e0 sw0 lv0 s).state =
                { s with nopen := add_nopen s.nopen 1 })
             ∨ (s.nopen = 0 ∧ ∃ en : Bool, (fileInitChecked hS E m e0 sw0 lv0 s).state =
                { set_locking_env (some en) s with nopen := add_nopen s.nopen 1 }))
        ∨ (fileInitChecked hS E m e0 sw0 lv0 s).attempts.length = 2
          ∧ ((s.nopen ≠ 0 ∧ (fileInitChecked hS E m e0 sw0 lv0 s).state = s)
             ∨ (s.nopen = 0 ∧ ∃ en : Bool, (fileInitChecked hS E m e0 sw0 lv0 s).state =
                set_locking_env (some en) s))))
    ∨ (∃ e, (fileInitChecked hS E m e0 sw0 lv0 s).res = .error e
      ∧ (((fileInitChecked hS E m e0 sw0 lv0 s).opened = true
            ∧ ((fileInitChecked hS E m e0 sw0 lv0 s).state =
                  closeFile { s with nopen := add_nopen s.nopen 1 }
               ∨ ∃ en : Bool, (fileInitChecked hS E m e0 sw0 lv0 s).state =
                  closeFile { set_locking_env (some en) s with nopen := add_nopen s.nopen 1 }))
         ∨ ((fileInitChecked hS E m e0 sw0 lv0 s).opened = false
            ∧ ((fileInitChecked hS E m e0 sw0 lv0 s).state = s
               ∨ ∃ en : Bool, (fileInitChecked hS E m e0 sw0 lv0 s).state =
                  set_locking_env (some en) s)))) := by
  unfold fileInitChecked
  split
  · exact Or.inr ⟨_, rfl, Or.inr ⟨rfl, Or.inl rfl⟩⟩
  · rename_i s1 heq
    rcases lockingStep_cases (resolvedEnable m e0 (forcedSwmr hS sw0)) s with
      ⟨e, hL⟩ | ⟨hne, hL⟩ | ⟨h0, hL⟩
    · rw [hL] at heq
      cases heq
    · rw [hL] at heq
      injection heq with hs1
      subst hs1
      rcases fileInitLocked_spec E m (forcedSwmr hS sw0)
          (resolvedLibver (forcedSwmr hS sw0) lv0) s with
        ⟨hres, hshape, hop⟩ | ⟨e, hres, hrest⟩
      · rcases hshape with ⟨hlen, hst⟩ | ⟨hlen, hst⟩
        · exact Or.inl ⟨hres, hop, Or.inl ⟨hlen, Or.inl ⟨hne, hst⟩⟩⟩
        · exact Or.inl ⟨hres, hop, Or.inr ⟨hlen, Or.inl ⟨hne, hst⟩⟩⟩
      · refine Or.inr ⟨e, hres, ?_⟩
        rcases hrest with ⟨hop, hst⟩ | ⟨hop, hst⟩
        · exact Or.inl ⟨hop, Or.inl hst⟩
        · exact Or.inr ⟨hop, Or.inl hst⟩
    · rw [hL] at heq
      injection heq with hs1
      subst hs1
      rcases fileInitLocked_spec E m (forcedSwmr hS sw0)
          (resolvedLibver (forcedSwmr hS sw0) lv0)
          (set_locking_env (some (resolvedEnable m e0 (forcedSwmr hS sw0))) s) with
        ⟨hres, hshape, hop⟩ | ⟨e, hres, hrest⟩
      · rcases hshape with ⟨hlen, hst⟩ | ⟨hlen, hst⟩
        · exact Or.inl ⟨hres, hop, Or.inl ⟨hlen, Or.inr ⟨h0,
            ⟨resolvedEnable m e0 (forcedSwmr hS sw0), hst⟩⟩⟩⟩
        · exact Or.inl ⟨hres, hop, Or.inr ⟨hlen, Or.inr ⟨h0,
            ⟨resolvedEnable m e0 (forcedSwmr hS sw0), hst⟩⟩⟩⟩
      · refine Or.inr ⟨e, hres, ?_⟩
        rcases hrest with ⟨hop, hst⟩ | ⟨hop, hst⟩
        · exact Or.inl ⟨hop, Or.inr ⟨resolvedEnable m e0 (forcedSwmr hS sw0), hst⟩⟩
        · exact Or.inr ⟨hop, Or.inr ⟨resolvedEnable m e0 (forcedSwmr hS sw0), hst⟩⟩

theorem fileInit_spec (hS : Bool) (E : InitEnv) (m0 : Option String)
    (e0 sw0 : Option Bool) (lv0 : Option String) (s : LState) :
    ((fileInit hS E m0 e0 sw0 lv0 s).res = .ok ()
      ∧ (fileInit hS E m0 e0 sw0 lv0 s).opened = true
      ∧ ((fileInit hS E m0 e0 sw0 lv0 s).attempts.length = 1
          ∧ ((s.nopen ≠ 0 ∧ (fileInit hS E m0 e0 sw0 lv0 s).state =
                { s with nopen := add_nopen s.nopen 1 })
             ∨ (s.nopen = 0 ∧ ∃ en : Bool, (fileInit hS E m0 e0 sw0 lv0 s).state =
                { set_locking_env (some en) s with nopen := add_nopen s.nopen 1 }))
        ∨ (fileInit hS E m0 e0 sw0 lv0 s).attempts.length = 2
          ∧ ((s.nopen ≠ 0 ∧ (fileInit hS E m0 e0 sw0 lv0 s).state = s)
             ∨ (s.nopen = 0 ∧ ∃ en : Bool, (fileInit hS E m0 e0 sw0 lv0 s).state =
                set_locking_env (some en) s))))
    ∨ (∃ e, (fileInit hS E m0 e0 sw0 lv0 s).res = .error e
      ∧ (((fileInit hS E m0 e0 sw0 lv0 s).opened = true
            ∧ ((fileInit hS E m0 e0 sw0 lv0 s).state =
                  closeFile { s with nopen := add_nopen s.nopen 1 }
               ∨ ∃ en : Bool, (fileInit hS E m0 e0 sw0 lv0 s).state =
                  closeFile { set_locking_env (some en) s with nopen := add_nopen s.nopen 1 }))
         ∨ ((fileInit hS E m0 e0 sw0 lv0 s).opened = false
            ∧ ((fileInit hS E m0 e0 sw0 lv0 s).state = s
               ∨ ∃ en : Bool, (fileInit hS E m0 e0 sw0 lv0 s).state =
                  set_locking_env (some en) s)))) := by
  unfold fileInit
  split
  · exact fileInitChecked_spec hS E "r" e0 sw0 lv0 s
  · split
    · exact fileInitChecked_spec hS E _ e0 sw0 lv0 s
    · exact Or.inr ⟨_, rfl, Or.inr ⟨rfl, Or.inl rfl⟩⟩

theorem fileInit_facts (hS : Bool) (E : InitEnv) (m0 : Option String)
    (e0 sw0 : Option Bool) (lv0 : Option String) (s : LState) (hn : 0 ≤ s.nopen) :
    ((fileInit hS E m0 e0 sw0 lv0 s).res = .ok () →
        (fileInit hS E m0 e0 sw0 lv0 s).attempts.length = 1
        ∨ (fileInit hS E m0 e0 sw0 lv0 s).attempts.length = 2)
    ∧ ((fileInit hS E m0 e0 sw0 lv0 s).res = .ok () →
        (fileInit hS E m0 e0 sw0 lv0 s).attempts.length = 1 →
        (fileInit hS E m0 e0 sw0 lv0 s).state.nopen = s.nopen + 1
        ∧ (fileInit hS E m0 e0 sw0 lv0 s).state.closes = s.closes
        ∧ (fileInit hS E m0 e0 sw0 lv0 s).opened = true)
    ∧ ((fileInit hS E m0 e0 sw0 lv0 s).res = .ok () →
        (fileInit hS E m0 e0 sw0 lv0 s).attempts.length = 2 →
        (fileInit hS E m0 e0 sw0 lv0 s).state.nopen = s.nopen
        ∧ (fileInit hS E m0 e0 sw0 lv0 s).state.closes = s.closes
        ∧ (fileInit hS E m0 e0 sw0 lv0 s).opened = true)
    ∧ (∀ e, (fileInit hS E m0 e0 sw0 lv0 s).res = .error e →
        (fileInit hS E m0 e0 sw0 lv0 s).state.nopen = s.nopen
        ∧ (fileInit hS E m0 e0 sw0 lv0 s).state.closes =
            s.closes + (if (fileInit hS E m0 e0 sw0 lv0 s).opened = true then 1 else 0)) := by
  rcases fileInit_spec hS E m0 e0 sw0 lv0 s with
    ⟨hres, hop, hshape⟩ | ⟨e0', hres, hrest⟩
  · refine ⟨?_, ?_, ?_, ?_⟩
    · intro _
      rcases hshape with ⟨hlen, _⟩ | ⟨hlen, _⟩
      · exact Or.inl hlen
      · exact Or.inr hlen
    · intro _ hlen1
      rcases hshape with ⟨_, hstate⟩ | ⟨hlen2, _⟩
      · refine ⟨?_, ?_, hop⟩ <;>
          rcases hstate with ⟨_, hst⟩ | ⟨_, en, hst⟩ <;> rw [hst] <;>
            simp [set_locking_env, add_nopen] <;> omega
      · rw [hlen1] at hlen2
        exact absurd hlen2 (by decide)
    · intro _ hlen2
      rcases hshape with ⟨hlen1, _⟩ | ⟨_, hstate⟩
      · rw [hlen2] at hlen1
        exact absurd hlen1 (by decide)
      · refine ⟨?_, ?_, hop⟩ <;>
          rcases hstate with ⟨_, hst⟩ | ⟨_, en, hst⟩ <;> rw [hst] <;>
            simp [set_locking_env]
    · intro e he
      rw [hres] at he
      cases he
  · refine ⟨?_, ?_, ?_, ?_⟩
    · intro hok
      rw [hres] at hok
      cases hok
    · intro hok
      rw [hres] at hok
      cases hok
    · intro hok
      rw [hres] at hok
      cases hok
    · intro e he
      rcases hrest with ⟨hop, hst⟩ | ⟨hop, hst⟩
      · rw [hop]
        rcases hst with hst | ⟨en, hst⟩ <;> rw [hst] <;>
          simp [closeFile_nopen, closeFile_closes, set_locking_env, add_nopen] <;> omega
      · rw [hop]
        rcases hst with hst | ⟨en, hst⟩ <;> rw [hst] <;>
          simp [set_locking_env]

theorem fileInitLocked_len2 (E : InitEnv) (m : String) (sw : Option Bool)
    (lv : Option String) (s : LState) :
    (fileInitLocked E m sw lv s).res = .ok () →
    (fileInitLocked E m sw lv s).attempts.length = 2 →
    ∃ e, E.h5open sw lv = .error e
      ∧ isOSError e = true ∧ m = "r" ∧ sw = none
      ∧ strContains (msgOf e) "file is already open for write" = true := by
  unfold fileInitLocked
  split
  · rename_i u heq
    intro _ hlen
    obtain ⟨_, hat, _⟩ := fileInitOpened_spec E m sw s [(sw, lv)]
    rw [hat] at hlen
    exact absurd hlen (by simp)
  · rename_i e heq
    split
    · rename_i hcond
      intro _ _
      exact ⟨e, heq, hcond⟩
    · intro hok _
      simp at hok

theorem fileInitChecked_len2 (hS : Bool) (E : InitEnv) (m : String)
    (e0 sw0 : Option Bool) (lv0 : Option String) (s : LState) :
    (fileInitChecked hS E m e0 sw0 lv0 s).res = .ok () →
    (fileInitChecked hS E m e0 sw0 lv0 s).attempts.length = 2 →
    ∃ e, E.h5open (forcedSwmr hS sw0) (resolvedLibver (forcedSwmr hS sw0) lv0) = .error e
      ∧ isOSError e = true ∧ m = "r" ∧ forcedSwmr hS sw0 = none
      ∧ strContains (msgOf e) "file is already open for write" = true := by
  unfold fileInitChecked
  split
  · intro hok _
    simp at hok
  · exact fileInitLocked_len2 E m (forcedSwmr hS sw0)
      (resolvedLibver (forcedSwmr hS sw0) lv0) _

/-- A call that succeeded in two underlying attempts entered the
SWMR-read fallback branch. -/
theorem fileInit_len2_trigger (hS : Bool) (E : InitEnv) (m0 : Option String)
    (e0 sw0 : Option Bool) (lv0 : Option String) (s : LState)
    (hok : (fileInit hS E m0 e0 sw0 lv0 s).res = .ok ())
    (hlen : (fileInit hS E m0 e0 sw0 lv0 s).attempts.length = 2) :
    fallbackTriggered hS E m0 sw0 lv0 = true := by
  have key : ∃ e,
      E.h5open (forcedSwmr hS sw0) (resolvedLibver (forcedSwmr hS sw0) lv0) = .error e
      ∧ isOSError e = true ∧ m0.getD "r" = "r" ∧ forcedSwmr hS sw0 = none
      ∧ strContains (msgOf e) "file is already open for write" = true := by
    revert hok hlen
    unfold fileInit
    split
    · intro hok hlen
      obtain ⟨e, h5, hos, _, hsw, hmsg⟩ := fileInitChecked_len2 hS E "r" e0 sw0 lv0 s hok hlen
      exact ⟨e, h5, hos, rfl, hsw, hmsg⟩
    · split
      · intro hok hlen
        obtain ⟨e, h5, hos, hm, hsw, hmsg⟩ := fileInitChecked_len2 hS E _ e0 sw0 lv0 s hok hlen
        exact ⟨e, h5, hos, by simpa using hm, hsw, hmsg⟩
      · intro hok _
        simp at hok
  obtain ⟨e, h5, hos, hm, hsw, hmsg⟩ := key
  unfold fallbackTriggered
  rw [h5]
  simp [hos, hm, hsw, hmsg]

theorem attemptRun_facts {α : Type} (p : FileParams) (a : AttemptSpec α) (s : LState)
    (hn : 0 ≤ s.nopen) :
    (attemptRun p a s).2.closes = s.closes +
        (if (fileInit p.hasSWMR a.E p.mode0 p.enable0 p.swmr0 p.libver0 s).opened = true
         then 1 else 0)
    ∧ (¬((fileInit p.hasSWMR a.E p.mode0 p.enable0 p.swmr0 p.libver0 s).res = .ok ()
          ∧ (fileInit p.hasSWMR a.E p.mode0 p.enable0 p.swmr0 p.libver0 s).attempts.length = 2) →
        (attemptRun p a s).2.nopen = s.nopen)
    ∧ (((fileInit p.hasSWMR a.E p.mode0 p.enable0 p.swmr0 p.libver0 s).res = .ok ()
          ∧ (fileInit p.hasSWMR a.E p.mode0 p.enable0 p.swmr0 p.libver0 s).attempts.length = 2) →
        (attemptRun p a s).2.nopen = add_nopen s.nopen (-1)) := by
  obtain ⟨hlen, hok1, hok2, herr⟩ :=
    fileInit_facts p.hasSWMR a.E p.mode0 p.enable0 p.swmr0 p.libver0 s hn
  unfold attemptRun
  split
  · rename_i e s1 att op heq
    have hres : (fileInit p.hasSWMR a.E p.mode0 p.enable0 p.swmr0 p.libver0 s).res = .error e := by
      rw [heq]
    have hstate : (fileInit p.hasSWMR a.E p.mode0 p.enable0 p.swmr0 p.libver0 s).state = s1 := by
      rw [heq]
    obtain ⟨hnop, hcl⟩ := herr e hres
    rw [hstate] at hnop hcl
    refine ⟨hcl, fun _ => hnop, fun hc => ?_⟩
    obtain ⟨hco, _⟩ := hc
    rw [hres] at hco
    cases hco
  · rename_i u s1 att op heq
    have hres : (fileInit p.hasSWMR a.E p.mode0 p.enable0 p.swmr0 p.libver0 s).res = .ok () := by
      rw [heq]
    have hstate : (fileInit p.hasSWMR a.E p.mode0 p.enable0 p.swmr0 p.libver0 s).state = s1 := by
      rw [heq]
    rcases hlen hres with hl1 | hl2
    · obtain ⟨hnop, hcl, hop⟩ := hok1 hres hl1
      rw [hstate] at hnop hcl
      rw [hop]
      refine ⟨?_, fun _ => ?_, fun hc => ?_⟩
      · cases a.body <;> simp [closeFile_closes, hcl]
      · cases a.body <;>
          · simp only [closeFile_nopen, hnop]
            exact add_nopen_down s.nopen hn
      · rw [hl1] at hc
        exact absurd hc.2 (by decide)
    · obtain ⟨hnop, hcl, hop⟩ := hok2 hres hl2
      rw [hstate] at hnop hcl
      rw [hop]
      refine ⟨?_, fun hnot => ?_, fun _ => ?_⟩
      · cases a.body <;> simp [closeFile_closes, hcl]
      · exact absurd ⟨hres, hl2⟩ hnot
      · cases a.body <;> simp [closeFile_nopen, hnop]

theorem retryLoopSt_nopen {α : Type} (p : FileParams) :
    ∀ (specs : List (AttemptSpec α)) (tmo : Option Nat) (s : LState), 0 ≤ s.nopen →
      (∀ b ∈ specs, fallbackTriggered p.hasSWMR b.E p.mode0 p.swmr0 p.libver0 = false) →
      (retryLoopSt p tmo specs s).2.nopen = s.nopen
  | [], tmo, s, _, _ => rfl
  | a :: rest, tmo, s, hn, hnf => by
    have hnfa : fallbackTriggered p.hasSWMR a.E p.mode0 p.swmr0 p.libver0 = false :=
      hnf a (List.mem_cons_self a rest)
    have hnfr : ∀ b ∈ rest, fallbackTriggered p.hasSWMR b.E p.mode0 p.swmr0 p.libver0 = false :=
      fun b hb => hnf b (List.mem_cons_of_mem a hb)
    have hnot : ¬((fileInit p.hasSWMR a.E p.mode0 p.enable0 p.swmr0 p.libver0 s).res = .ok ()
        ∧ (fileInit p.hasSWMR a.E p.mode0 p.enable0 p.swmr0 p.libver0 s).attempts.length = 2) := by
      rintro ⟨h1, h2⟩
      have htr := fileInit_len2_trigger p.hasSWMR a.E p.mode0 p.enable0 p.swmr0 p.libver0 s h1 h2
      rw [htr] at hnfa
      cases hnfa
    obtain ⟨_, hA, _⟩ := attemptRun_facts p a s hn
    have hnop := hA hnot
    unfold retryLoopSt
    split
    · rename_i v s1 heq
      have h2 : (attemptRun p a s).2 = s1 := by rw [heq]
      rw [← h2]
      exact hnop
    · rename_i e s1 heq
      have h2 : (attemptRun p a s).2 = s1 := by rw [heq]
      have hs1 : s1.nopen = s.nopen := by rw [← h2]; exact hnop
      have hs1n : 0 ≤ s1.nopen := by omega
      cases hcls : classifyExc e with
      | propagate => simp [hcls, hs1]
      | retryable =>
        cases tmo with
        | none =>
          simp only [hcls]
          rw [retryLoopSt_nopen p rest none s1 hs1n hnfr]
          exact hs1
        | some t =>
          simp only [hcls]
          split
          · exact hs1
          · rw [retryLoopSt_nopen p rest (some t) s1 hs1n hnfr]
            exact hs1

/-! ## C9: scoped acquisition -/

/-- C9 counterexample: with one other handle open (`_NOPEN = 1`), a
retry attempt whose open succeeds through the SWMR-read fallback skips
the `try`-else increment while the scoped close still decrements, so
the wrapped call ends at `_NOPEN = 0` instead of its pre-call value
`1`, refuting the claim that the count always returns to its pre-call
value. -/
theorem scoped_close_counterexample :
    (⟨some "FALSE", none, 1, 0⟩ : LState).nopen = 1
    ∧ (attemptRun (α := Nat) ⟨true, some "r", none, none, none⟩
        ⟨envWriterHolds, .ret 7, 3⟩ ⟨some "FALSE", none, 1, 0⟩).2.nopen = 0
    ∧ ((0 : Int) ≠ 1) := by
  decide

/-- C9 amended: within one retry attempt the handle is closed exactly
once on every exit path (one close when the underlying open succeeded —
whether the body returns, raises, or `__init__` failed after opening —
and none when it never opened).  The open count after an attempt equals
its value before whenever the attempt did not open through the
SWMR-read fallback; a fallback-opened attempt ends with the count
decremented by one (clamped at zero), the skipped `try`-else increment
being unmatched by the close.  The whole wrapped call preserves the
count when no attempt triggers the fallback. -/
theorem scoped_close_exactly_once {α : Type} (p : FileParams) (a : AttemptSpec α)
    (tmo : Option Nat) (specs : List (AttemptSpec α)) (s : LState) (hn : 0 ≤ s.nopen) :
    (attemptRun p a s).2.closes = s.closes +
        (if (fileInit p.hasSWMR a.E p.mode0 p.enable0 p.swmr0 p.libver0 s).opened = true
         then 1 else 0)
    ∧ (¬((fileInit p.hasSWMR a.E p.mode0 p.enable0 p.swmr0 p.libver0 s).res = .ok ()
          ∧ (fileInit p.hasSWMR a.E p.mode0 p.enable0 p.swmr0 p.libver0 s).attempts.length = 2) →
        (attemptRun p a s).2.nopen = s.nopen)
    ∧ (((fileInit p.hasSWMR a.E p.mode0 p.enable0 p.swmr0 p.libver0 s).res = .ok ()
          ∧ (fileInit p.hasSWMR a.E p.mode0 p.enable0 p.swmr0 p.libver0 s).attempts.length = 2) →
        (attemptRun p a s).2.nopen = add_nopen s.nopen (-1))
    ∧ ((∀ b ∈ specs, fallbackTriggered p.hasSWMR b.E p.mode0 p.swmr0 p.libver0 = false) →
        (retryLoopSt p tmo specs s).2.nopen = s.nopen) :=
  ⟨(attemptRun_facts p a s hn).1, (attemptRun_facts p a s hn).2.1,
   (attemptRun_facts p a s hn).2.2,
   fun hnf => retryLoopSt_nopen p specs tmo s hn hnf⟩

theorem scoped_close_exactly_once_witness :
    (attemptRun (α := Nat) ⟨true, some "a", some false, none, none⟩
        ⟨envAllOk, .raise (.osError "boom"), 3⟩ ⟨none, none, 0, 0⟩).2.nopen = 0
    ∧ (retryLoopSt (α := Nat) ⟨true, some "a", some false, none, none⟩ (some 10)
        [⟨envAllOk, .raise (.osError "boom"), 3⟩] ⟨none, none, 0, 0⟩).2.nopen = 0 := by
  have h := scoped_close_exactly_once (α := Nat) ⟨true, some "a", some false, none, none⟩
    ⟨envAllOk, .raise (.osError "boom"), 3⟩ (some 10)
    [⟨envAllOk, .raise (.osError "boom"), 3⟩] ⟨none, none, 0, 0⟩ (by decide)
  exact ⟨h.2.1 (fun hc => absurd hc.2 (by decide)), h.2.2.2 (by decide)⟩

theorem fileInitLocked_ok (E : InitEnv) (m : String) (sw : Option Bool)
    (lv : Option String) (s : LState) (hf : E.h5open sw lv = .ok ()) :
    fileInitLocked E m sw lv s = fileInitOpened E m sw s [(sw, lv)] := by
  unfold fileInitLocked
  split
  · rfl
  · rename_i e heq
    rw [hf] at heq
    simp at heq

theorem fileInitLocked_err_match (E : InitEnv) (m : String) (sw : Option Bool)
    (lv : Option String) (s : LState) (e : Exc) (hf : E.h5open sw lv = .error e)
    (hc : isOSError e = true ∧ m = "r" ∧ sw = none ∧
      strContains (msgOf e) "file is already open for write" = true) :
    fileInitLocked E m sw lv s
      = match E.h5open (some true) (if lv = none then some "latest" else lv) with
        | .ok _ => ⟨.ok (), s,
            [(sw, lv), (some true, if lv = none then some "latest" else lv)], true⟩
        | .error e2 => ⟨.error e2, s,
            [(sw, lv), (some true, if lv = none then some "latest" else lv)], false⟩ := by
  unfold fileInitLocked
  split
  · rename_i u heq
    rw [hf] at heq
    simp at heq
  · rename_i e' heq
    rw [hf] at heq
    injection heq with he'
    subst he'
    rw [if_pos hc]

theorem fileInitLocked_err_nomatch (E : InitEnv) (m : String) (sw : Option Bool)
    (lv : Option String) (s : LState) (e : Exc) (hf : E.h5open sw lv = .error e)
    (hc : ¬(isOSError e = true ∧ m = "r" ∧ sw = none ∧
      strContains (msgOf e) "file is already open for write" = true)) :
    fileInitLocked E m sw lv s = ⟨.error e, s, [(sw, lv)], false⟩ := by
  unfold fileInitLocked
  split
  · rename_i u heq
    rw [hf] at heq
    simp at heq
  · rename_i e' heq
    rw [hf] at heq
    injection heq with he'
    subst he'
    rw [if_neg hc]

/-! ## C8: the writer-side SWMR step -/

/-- C8: opening in a write mode with `swmr = True` (and the default
locking flag, which resolves to `true`): once the underlying open
succeeds the count is incremented and the writer's SWMR mode is
enabled; when that second step fails the handle is closed — the count
returns to its pre-open value — and the error propagates; when it
succeeds the count stays incremented. -/
theorem swmr_writer_enable_failure_cleanup (E : InitEnv) (m : String) (s : LState)
    (hm : m ∈ validModes) (hr : m ≠ "r") (hn : 0 ≤ s.nopen)
    (hlock : s.nopen ≠ 0 → get_locking_env s.env = some true)
    (hopen : E.h5open (some true) (some "latest") = .ok ()) :
    (∀ e, E.setSwmr = .error e →
      (fileInit true E (some m) none (some true) none s).res = .error e
      ∧ (fileInit true E (some m) none (some true) none s).state.nopen = s.nopen
      ∧ (fileInit true E (some m) none (some true) none s).opened = true)
    ∧ (E.setSwmr = .ok () →
      (fileInit true E (some m) none (some true) none s).res = .ok ()
      ∧ (fileInit true E (some m) none (some true) none s).state.nopen = s.nopen + 1) := by
  have he : resolvedEnable m none (forcedSwmr true (some true)) = true := by
    simp [resolvedEnable, forcedSwmr, resolve_enable_file_locking, pyTruthy]
  have hstep : ∃ sb : LState,
      lockingStep (resolvedEnable m none (forcedSwmr true (some true))) s = .ok sb
      ∧ sb.nopen = s.nopen := by
    by_cases h0 : s.nopen = 0
    · refine ⟨set_locking_env (some (resolvedEnable m none (forcedSwmr true (some true)))) s,
        ?_, rfl⟩
      unfold lockingStep
      rw [if_neg (by omega)]
    · refine ⟨s, ?_, rfl⟩
      unfold lockingStep
      rw [if_pos h0]
      simp [check_locking_env, he, hlock h0, Except.map]
  obtain ⟨sb, hL, hbn⟩ := hstep
  have h1 : fileInit true E (some m) none (some true) none s
      = fileInitOpened E m (some true) sb [(some true, some "latest")] := by
    have h0 : fileInit true E (some m) none (some true) none s
        = if m ∈ validModes then fileInitChecked true E m none (some true) none s
          else ⟨.error (.valueError ("invalid mode " ++ m)), s, [], false⟩ := rfl
    rw [h0, if_pos hm]
    have h2 : fileInitChecked true E m none (some true) none s
        = fileInitLocked E m (forcedSwmr true (some true))
            (resolvedLibver (forcedSwmr true (some true)) none) sb := by
      unfold fileInitChecked
      rw [hL]
    rw [h2]
    rw [show forcedSwmr true (some true) = some true from rfl]
    rw [show resolvedLibver (some true) none = some "latest" from rfl]
    unfold fileInitLocked
    rw [hopen]
  rw [h1]
  unfold fileInitOpened
  rw [if_pos (show m ≠ "r" ∧ pyTruthy (some true) = true from ⟨hr, rfl⟩)]
  constructor
  · intro e hsw
    rw [hsw]
    refine ⟨rfl, ?_, rfl⟩
    simp [closeFile_nopen, add_nopen, hbn]
    omega
  · intro hsw
    rw [hsw]
    refine ⟨rfl, ?_⟩
    simp [add_nopen, hbn]
    omega

theorem swmr_writer_enable_failure_cleanup_witness :
    ((fileInit true envSwmrFails (some "w") none (some true) none
        ⟨none, none, 0, 0⟩).res = .error (.runtimeError "unable to start swmr writing")
      ∧ (fileInit true envSwmrFails (some "w") none (some true) none
          ⟨none, none, 0, 0⟩).state.nopen = 0
      ∧ (fileInit true envSwmrFails (some "w") none (some true) none
          ⟨none, none, 0, 0⟩).opened = true)
    ∧ ((fileInit true envAllOk (some "w") none (some true) none
        ⟨none, none, 0, 0⟩).res = .ok ()
      ∧ (fileInit true envAllOk (some "w") none (some true) none
          ⟨none, none, 0, 0⟩).state.nopen = 0 + 1) :=
  ⟨(swmr_writer_enable_failure_cleanup envSwmrFails "w" ⟨none, none, 0, 0⟩
      (by decide) (by decide) (by decide) (fun h => absurd rfl h) rfl).1
      (.runtimeError "unable to start swmr writing") rfl,
   (swmr_writer_enable_failure_cleanup envAllOk "w" ⟨none, none, 0, 0⟩
      (by decide) (by decide) (by decide) (fun h => absurd rfl h) rfl).2 rfl⟩

/-! ## C3: the fall-back-to-SWMR-read negotiation -/

/-- C3 counterexample: with `mode = "r"`, `swmr` unresolved and an
explicit `libver = "v108"`, the already-open-for-write failure is
retried with `swmr = True` but with the caller's version bound kept,
not pinned to `"latest"`: the pin only happens when no bound was
given. -/
theorem swmr_fallback_libver_counterexample :
    (fileInit true envWriterHolds (some "r") none none (some "v108")
        ⟨none, none, 0, 0⟩).attempts
      = [(none, some "v108"), (some true, some "v108")]
    ∧ ((some "v108" : Option String) ≠ some "latest") := by
  decide

/-- C3 amended: when a read-mode open with `swmr` unresolved fails with
an `OSError` carrying the already-open-for-write message, the open is
retried exactly once with `swmr = True`, the version bound pinned to
`"latest"` only when the caller left it unspecified (the caller's bound
is kept otherwise), and the second outcome is returned as is; any
failure without that signature, and any failure when the caller did
resolve `swmr`, propagates unchanged with no second attempt. -/
theorem swmr_fallback_retry_once_amended (E : InitEnv) (lv0 : Option String) (s : LState)
    (hn : s.nopen = 0) :
    (∀ e, E.h5open none lv0 = .error e → isOSError e = true →
      strContains (msgOf e) "file is already open for write" = true →
      (fileInit true E (some "r") none none lv0 s).attempts =
        [(none, lv0), (some true, if lv0 = none then some "latest" else lv0)]
      ∧ (E.h5open (some true) (if lv0 = none then some "latest" else lv0) = .ok () →
          (fileInit true E (some "r") none none lv0 s).res = .ok ())
      ∧ (∀ e2, E.h5open (some true) (if lv0 = none then some "latest" else lv0) = .error e2 →
          (fileInit true E (some "r") none none lv0 s).res = .error e2))
    ∧ (∀ e, E.h5open none lv0 = .error e →
        ¬(isOSError e = true ∧
          strContains (msgOf e) "file is already open for write" = true) →
        (fileInit true E (some "r") none none lv0 s).attempts = [(none, lv0)]
        ∧ (fileInit true E (some "r") none none lv0 s).res = .error e)
    ∧ (∀ (b : Bool) e, E.h5open (some b) (resolvedLibver (some b) lv0) = .error e →
        (fileInit true E (some "r") none (some b) lv0 s).attempts =
          [(some b, resolvedLibver (some b) lv0)]
        ∧ (fileInit true E (some "r") none (some b) lv0 s).res = .error e) := by
  have hL : ∀ en : Bool, lockingStep en s = .ok (set_locking_env (some en) s) := by
    intro en
    unfold lockingStep
    rw [if_neg (by omega)]
  have hred : ∀ sw0 : Option Bool,
      fileInit true E (some "r") none sw0 lv0 s
        = fileInitLocked E "r" (forcedSwmr true sw0)
            (resolvedLibver (forcedSwmr true sw0) lv0)
            (set_locking_env (some (resolvedEnable "r" none (forcedSwmr true sw0))) s) := by
    intro sw0
    have h0 : fileInit true E (some "r") none sw0 lv0 s
        = fileInitChecked true E "r" none sw0 lv0 s := rfl
    rw [h0]
    unfold fileInitChecked
    rw [hL (resolvedEnable "r" none (forcedSwmr true sw0))]
  refine ⟨?_, ?_, ?_⟩
  · intro e hfail hos hmsg
    have h1 := hred none
    rw [show forcedSwmr true (none : Option Bool) = none from rfl] at h1
    rw [show resolvedLibver none lv0 = lv0 from rfl] at h1
    rw [h1, fileInitLocked_err_match E "r" none lv0 _ e hfail ⟨hos, rfl, rfl, hmsg⟩]
    refine ⟨?_, ?_, ?_⟩
    · cases h2 : E.h5open (some true) (if lv0 = none then some "latest" else lv0) <;> rfl
    · intro hok
      rw [hok]
    · intro e2 he2
      rw [he2]
  · intro e hfail hcontra
    have h1 := hred none
    rw [show forcedSwmr true (none : Option Bool) = none from rfl] at h1
    rw [show resolvedLibver none lv0 = lv0 from rfl] at h1
    rw [h1, fileInitLocked_err_nomatch E "r" none lv0 _ e hfail
      (fun hfull => hcontra ⟨hfull.1, hfull.2.2.2⟩)]
    exact ⟨rfl, rfl⟩
  · intro b e hfail
    have h1 := hred (some b)
    rw [show forcedSwmr true (some b) = some b from rfl] at h1
    rw [h1, fileInitLocked_err_nomatch E "r" (some b) (resolvedLibver (some b) lv0) _ e hfail
      (fun hfull => Option.noConfusion hfull.2.2.1)]
    exact ⟨rfl, rfl⟩

theorem swmr_fallback_retry_once_amended_witness :
    (fileInit true envWriterHolds (some "r") none none none
        ⟨none, none, 0, 0⟩).attempts = [(none, none), (some true, some "latest")]
    ∧ (fileInit true envWriterHolds (some "r") none none none
        ⟨none, none, 0, 0⟩).res = .ok () := by
  have h := (swmr_fallback_retry_once_amended envWriterHolds none
      ⟨none, none, 0, 0⟩ rfl).1
    (.osError "unable to open file (file is already open for write (may use h5clear))")
    rfl (by decide) (by decide)
  exact ⟨h.1, h.2.1 rfl⟩

/-! ## C5: restore correctness of the ambient locking setting -/

theorem get_write_backup (env : Option String) :
    get_locking_env (write_locking_env (backup_locking_env env)) = get_locking_env env := by
  cases env with
  | none => rfl
  | some v =>
    by_cases hv : v = "TRUE" <;>
      simp [backup_locking_env, write_locking_env, get_locking_env, hv]

theorem sessionRun_inv :
    ∀ (t : List SessionEv) (s : LState) (g : Option Bool) (s2 : LState),
      0 ≤ s.nopen → closable s.nopen t = true → sessionNoFallback t = true →
      LockInv g s → sessionRun s t = some s2 → LockInv g s2 ∧ 0 ≤ s2.nopen
  | [], s, g, s2, hn, _, _, hInv, hrun => by
    simp [sessionRun] at hrun
    subst hrun
    exact ⟨hInv, hn⟩
  | .sopen p E :: t, s, g, s2, hn, hc, hnf, hInv, hrun => by
    have hc' : closable (s.nopen + 1) t = true := by simpa [closable] using hc
    have hnf2 : fallbackTriggered p.hasSWMR E p.mode0 p.swmr0 p.libver0 = false
        ∧ sessionNoFallback t = true := by
      simpa [sessionNoFallback] using hnf
    obtain ⟨hhead, htail⟩ := hnf2
    cases hF : fileInit p.hasSWMR E p.mode0 p.enable0 p.swmr0 p.libver0 s with
    | mk r st att op =>
      cases r with
      | error e =>
        have hnone : sessionRun s (.sopen p E :: t) = none := by
          simp [sessionRun, sessionStep, hF]
        rw [hnone] at hrun
        simp at hrun
      | ok u =>
        cases u
        have hstep : sessionRun s (.sopen p E :: t) = sessionRun st t := by
          simp [sessionRun, sessionStep, hF]
        rw [hstep] at hrun
        rcases fileInit_spec p.hasSWMR E p.mode0 p.enable0 p.swmr0 p.libver0 s with
          ⟨hresOK, _, hshape⟩ | ⟨e, hres, _⟩
        · rcases hshape with ⟨_, hstate⟩ | ⟨hlen2, _⟩
          · rw [hF] at hstate
            simp only at hstate
            rcases hstate with ⟨hne, hst⟩ | ⟨h0, en, hst⟩
            · subst hst
              apply sessionRun_inv t _ g s2 ?_ ?_ htail ?_ hrun
              · show (0 : Int) ≤ add_nopen s.nopen 1
                unfold add_nopen
                omega
              · show closable (add_nopen s.nopen 1) t = true
                rw [add_nopen_up s.nopen hn]
                exact hc'
              · refine ⟨fun h0' => ?_, fun _ => ?_⟩
                · exfalso
                  have h0'' : add_nopen s.nopen 1 = 0 := h0'
                  rw [add_nopen_up s.nopen hn] at h0''
                  omega
                · exact hInv.2 hne
            · subst hst
              apply sessionRun_inv t _ g s2 ?_ ?_ htail ?_ hrun
              · show (0 : Int) ≤ add_nopen s.nopen 1
                unfold add_nopen
                omega
              · show closable (add_nopen s.nopen 1) t = true
                rw [add_nopen_up s.nopen hn]
                exact hc'
              · refine ⟨fun h0' => ?_, fun _ => ?_⟩
                · exfalso
                  have h0'' : add_nopen s.nopen 1 = 0 := h0'
                  rw [add_nopen_up s.nopen hn] at h0''
                  omega
                · show get_locking_env (write_locking_env (backup_locking_env s.env)) = g
                  rw [get_write_backup]
                  exact hInv.1 h0
          · exfalso
            have htr := fileInit_len2_trigger p.hasSWMR E p.mode0 p.enable0 p.swmr0
              p.libver0 s hresOK hlen2
            rw [htr] at hhead
            cases hhead
        · rw [hF] at hres
          simp at hres
  | .sclose :: t, s, g, s2, hn, hc, hnf, hInv, hrun => by
    have hc2 : 1 ≤ s.nopen ∧ closable (s.nopen - 1) t = true := by
      simpa [closable] using hc
    obtain ⟨h1, hc'⟩ := hc2
    have htail : sessionNoFallback t = true := by simpa [sessionNoFallback] using hnf
    have hstep : sessionRun s (.sclose :: t) = sessionRun (closeFile s) t := by
      simp [sessionRun, sessionStep]
    rw [hstep] at hrun
    by_cases h0 : s.nopen = 1
    · have hcf : closeFile s = ⟨write_locking_env s.backup, none, 0, s.closes + 1⟩ :=
        closeFile_restore s (by unfold add_nopen; omega)
      rw [hcf] at hrun
      apply sessionRun_inv t _ g s2 ?_ ?_ htail ?_ hrun
      · show (0 : Int) ≤ 0
        exact le_refl 0
      · show closable (0 : Int) t = true
        rw [h0] at hc'
        simpa using hc'
      · refine ⟨fun _ => ?_, fun hne' => absurd rfl hne'⟩
        show get_locking_env (write_locking_env s.backup) = g
        exact hInv.2 (by omega)
    · have hcf : closeFile s = ⟨s.env, s.backup, add_nopen s.nopen (-1), s.closes + 1⟩ :=
        closeFile_keep s (by unfold add_nopen; omega)
      rw [hcf] at hrun
      have hdec : add_nopen s.nopen (-1) = s.nopen - 1 := by unfold add_nopen; omega
      apply sessionRun_inv t _ g s2 ?_ ?_ htail ?_ hrun
      · show (0 : Int) ≤ add_nopen s.nopen (-1)
        unfold add_nopen
        omega
      · show closable (add_nopen s.nopen (-1)) t = true
        rw [hdec]
        exact hc'
      · refine ⟨fun h0' => ?_, fun _ => ?_⟩
        · exfalso
          have h0'' : add_nopen s.nopen (-1) = 0 := h0'
          rw [hdec] at h0''
          omega
        · show get_locking_env (write_locking_env s.backup) = g
          exact hInv.2 (by omega)

/-- C5 counterexample: ambient setting `"TRUE"`; a normal read open
switches the environment to `"FALSE"` and backs `"TRUE"` up; a second
open succeeds through the SWMR-read fallback and is not counted; the
first close already brings the count to zero and restores `"TRUE"`
early, clearing the backup; the second close reaches count zero again
and the restore resets the variable to unset.  The sequence is
well-nested, every open succeeds, it starts and ends with the count at
zero, yet the final ambient setting (unset) differs from the initial
one (`"TRUE"`), refuting the claim as stated. -/
theorem locking_env_restore_counterexample :
    closable 0
        [.sopen ⟨true, some "r", none, some false, none⟩ envAllOk,
         .sopen ⟨true, some "r", none, none, none⟩ envWriterHolds, .sclose, .sclose] = true
    ∧ sessionRun ⟨some "TRUE", none, 0, 0⟩
        [.sopen ⟨true, some "r", none, some false, none⟩ envAllOk,
         .sopen ⟨true, some "r", none, none, none⟩ envWriterHolds, .sclose, .sclose]
      = some ⟨none, none, 0, 2⟩
    ∧ get_locking_env (none : Option String) ≠
        get_locking_env (some "TRUE" : Option String) := by
  decide

/-- C5 amended: along any well-nested sequence of successful opens and
closes that starts and ends with no open handle and in which no open
enters the SWMR-read fallback branch, the ambient locking setting read
after the last close equals the one read before the first open — the
restore target is the pre-existing ambient value captured at the first
open, at any nesting depth.  A fallback-path open is not counted (the
`try`-else increment is skipped), so its close can reach count zero
early and the final restore then resets the ambient setting to unset,
as the counterexample shows. -/
theorem locking_env_restore_correct (t : List SessionEv) (s s2 : LState)
    (h0 : s.nopen = 0) (hc : closable 0 t = true)
    (hnf : sessionNoFallback t = true)
    (hrun : sessionRun s t = some s2) (hend : s2.nopen = 0) :
    get_locking_env s2.env = get_locking_env s.env := by
  have hInv : LockInv (get_locking_env s.env) s :=
    ⟨fun _ => rfl, fun hne => absurd h0 hne⟩
  have hc' : closable s.nopen t = true := by rw [h0]; exact hc
  have h := sessionRun_inv t s (get_locking_env s.env) s2 (by omega) hc' hnf hInv hrun
  exact h.1.1 hend

theorem locking_env_restore_correct_witness :
    get_locking_env (LState.mk (some "FALSE") none 0 2).env
      = get_locking_env (LState.mk (some "FALSE") none 0 0).env :=
  locking_env_restore_correct
    [.sopen ⟨true, some "a", some false, none, none⟩ envAllOk,
     .sopen ⟨true, some "a", some false, none, none⟩ envAllOk, .sclose, .sclose]
    ⟨some "FALSE", none, 0, 0⟩ ⟨some "FALSE", none, 0, 2⟩ rfl (by decide) (by decide)
    (by decide) rfl

end H5pyUtils
